import Mathlib

/-!
Shallow embedding of the podcast preview-card component
(`src/components/podcastPreview.js`) and the grid renderer
(`src/views/createGrid.js`).

JavaScript values that matter to the code's control flow are embedded
explicitly:
* an optional string field (`title`, `formattedDate`) is a `JStr`:
  `undef` (absent or explicitly `undefined`), `null`, or a string; the
  `x || y` fallback in the source tests truthiness, and an empty string
  is falsy;
* an optional string-array field (`genreNames`) is a `JStrArr`; a
  present array is always truthy in JavaScript, whatever its contents.

DOM sinks are embedded by their WebIDL coercions: `textContent` is a
nullable `DOMString` with `LegacyNullToEmptyString`, so assigning
`undefined` or `null` stores the empty string, while a template literal
stringifies `undefined` to `"undefined"` and `null` to `"null"`.

The external collaborators (`GenreService.getNames`, `DateUtils.format`)
are parameters, and every rendering function additionally returns the
list of arguments each collaborator was invoked with during that call,
so that "the collaborator is (not) invoked" is a statement about the
returned log. All functions are total: within the embedded value domain
no operation of the source throws, except the grid render on a missing
container, which is modelled with `Except`.
-/

/-- A JavaScript value that is either `undefined`, `null`, or a string.
Used for the optional string fields of a podcast record. -/
inductive JStr where
  | undef
  | null
  | str (s : String)
deriving Repr, DecidableEq

/-- JavaScript truthiness of a `JStr`: only a non-empty string is truthy. -/
def JStr.truthy : JStr → Bool
  | .str s => s != ""
  | _ => false

/-- WebIDL coercion for assignment to `Node.textContent`
(`[LegacyNullToEmptyString] DOMString?`): `undefined` and `null` both
store the empty string. -/
def JStr.toTextContent : JStr → String
  | .str s => s
  | _ => ""

/-- JavaScript template-literal stringification: `undefined` and `null`
are spelled out. -/
def JStr.toTemplate : JStr → String
  | .undef => "undefined"
  | .null => "null"
  | .str s => s

/-- A JavaScript value that is either `undefined`, `null`, or an array of
strings. Used for the optional `genreNames` field. -/
inductive JStrArr where
  | undef
  | null
  | arr (l : List String)
deriving Repr, DecidableEq

/-- JavaScript truthiness of a `JStrArr`: any array is truthy. -/
def JStrArr.truthy : JStrArr → Bool
  | .arr _ => true
  | _ => false

/-- A podcast record as consumed by the component. Required fields are
plain values; the optional `genreNames` and `formattedDate` fields carry
their JavaScript value (`undefined` when absent), and `title` is a `JStr`
so that a record with `title` undefined is representable. -/
structure Podcast where
  id : String
  title : JStr
  image : String
  seasons : Nat
  genres : List Nat
  genreNames : JStrArr
  updated : String
  formattedDate : JStr
deriving Repr, DecidableEq

/-- The selection notification dispatched from the card's click handler:
a `podcast-selected` `CustomEvent` with `detail.podcast` (`none` models
`undefined`), `bubbles: true`, `composed: true`. -/
structure SelectionEvent where
  detailPodcast : Option Podcast
  bubbles : Bool
  composed : Bool
deriving Repr, DecidableEq

/-- The observable state of one `PodcastPreview` card: the stored
`_podcast` and the contents of the shadow-DOM element handles the
component caches in `this.elements`. `tags` holds one entry per tag
element rendered into the `.tags` container (the source builds them by
mapping each resolved genre name to a span and joining). `onclick` is
whether the card element's single `onclick` slot currently holds the
dispatch closure; assigning `onclick` replaces, so there is one slot,
never a growing list. -/
structure CardState where
  podcast : Option Podcast
  imgSrc : String
  imgAlt : String
  titleText : String
  seasonsText : String
  tags : List String
  updatedText : String
  onclick : Bool
deriving Repr, DecidableEq

/-- State of a freshly constructed card: the cloned template has an empty
`img`, `h3`, `.seasons`, `.tags` and `.updated-text`, no stored podcast
and no click handler. -/
def newCard : CardState :=
  { podcast := none
    imgSrc := ""
    imgAlt := ""
    titleText := ""
    seasonsText := ""
    tags := []
    updatedText := ""
    onclick := false }

/-- The markup produced for one resolved genre name:
one inline span with class `tag`. -/
def renderTag (g : String) : String :=
  "<span class=\"tag\">" ++ g ++ "</span>"

/-- `PodcastPreview.renderPodcast`, embedded. Returns the updated card
state together with the argument lists of the calls made to the genre
collaborator and to the date collaborator during this render pass.
Mirrors the source line by line: the guard `if (!this._podcast) return`,
the truthiness fallbacks
`genreNames || GenreService.getNames(genres)` and
`formattedDate || DateUtils.format(updated)`, the element updates, and
the `onclick` assignment. -/
def renderPodcast (gs : List Nat → List String) (ds : String → String)
    (s : CardState) : CardState × List (List Nat) × List String :=
  match s.podcast with
  | none => (s, [], [])
  | some p =>
    let rg : List String × List (List Nat) :=
      match p.genreNames with
      | .arr l => (l, [])
      | _ => (gs p.genres, [p.genres])
    let dd : String × List String :=
      match p.formattedDate with
      | .str d => if d = "" then (ds p.updated, [p.updated]) else (d, [])
      | _ => (ds p.updated, [p.updated])
    ({ s with
        imgSrc := p.image
        imgAlt := p.title.toTemplate ++ " cover"
        titleText := p.title.toTextContent
        seasonsText :=
          toString p.seasons ++ " season" ++ (if p.seasons > 1 then "s" else "")
        tags := rg.1.map renderTag
        updatedText := dd.1
        onclick := true },
      rg.2, dd.2)

/-- `PodcastPreview.setPodcast`: store the record in `_podcast`, then
render. Returns the new state and the collaborator-call logs of the
render pass. -/
def setPodcast (gs : List Nat → List String) (ds : String → String)
    (p : Podcast) (s : CardState) : CardState × List (List Nat) × List String :=
  renderPodcast gs ds { s with podcast := some p }

/-- A sequence of `setPodcast` calls on one card, in order. -/
def setPodcasts (gs : List Nat → List String) (ds : String → String)
    (ps : List Podcast) (s : CardState) : CardState :=
  ps.foldl (fun st p => (setPodcast gs ds p st).1) s

/-- A user click on the card surface: if the `onclick` slot holds the
dispatch closure, it fires once, reading the card's current `_podcast`
at click time and dispatching one bubbling, composed `podcast-selected`
event. -/
def click (s : CardState) : List SelectionEvent :=
  if s.onclick then [⟨s.podcast, true, true⟩] else []

/-- The genre names the render pass resolves for a record: the provided
`genreNames` array when present (arrays are truthy), otherwise the genre
collaborator applied to `genres`. -/
def resolvedGenres (gs : List Nat → List String) (p : Podcast) : List String :=
  match p.genreNames with
  | .arr l => l
  | _ => gs p.genres

/-- An exception escaping the grid renderer, as a value. -/
inductive JSError where
  | typeError (msg : String)
deriving Repr, DecidableEq

/-- The grid object returned by `createGrid`: it has captured
`document.getElementById("podcastGrid")`, which is `none` when the
container element is absent. -/
structure GridObj where
  container : Option Unit
deriving Repr, DecidableEq

/-- `createGrid`, embedded: looks up the container and returns the grid
object. The lookup itself never throws; an absent container is silently
stored as `none`. The `Except` return type records that no error is
reported to the caller at creation time. -/
def createGrid (hasContainer : Bool) : Except JSError GridObj :=
  .ok { container := if hasContainer then some () else none }

/-- Enrichment performed by the grid for each record before binding:
spread the record and overwrite `genreNames` and `formattedDate` with
freshly computed values. -/
def enrich (gs : List Nat → List String) (ds : String → String)
    (p : Podcast) : Podcast :=
  { p with genreNames := .arr (gs p.genres), formattedDate := .str (ds p.updated) }

/-- One iteration of the grid's `forEach`: create a fresh
`podcast-preview` element and call `setPodcast` on it with the enriched
record. Returns the card state and the collaborator-call logs, the
grid-level calls (`GenreService.getNames(podcast.genres)`,
`DateUtils.format(podcast.updated)`) first, then any calls the card's
own render pass makes. -/
def mkGridCard (gs : List Nat → List String) (ds : String → String)
    (p : Podcast) : CardState × List (List Nat) × List String :=
  let r := setPodcast gs ds (enrich gs ds p) newCard
  (r.1, p.genres :: r.2.1, p.updated :: r.2.2)

/-- `createGrid(...).render`, embedded. `prior` is the container's
content before the call. On a null container the very first statement,
`container.innerHTML = ""`, throws a `TypeError`; otherwise the
container is cleared and one fresh card is appended per record, in input
order. -/
def gridRender (gs : List Nat → List String) (ds : String → String)
    (g : GridObj) (_prior : List CardState) (l : List Podcast) :
    Except JSError (List CardState) :=
  match g.container with
  | none => .error (.typeError "Cannot set properties of null")
  | some _ =>
    let cleared : List CardState := []
    .ok (l.foldl (fun acc p => acc ++ [(mkGridCard gs ds p).1]) cleared)

/-- A concrete genre collaborator for witnesses. -/
def gs0 : List Nat → List String :=
  fun ids => ids.map (fun i => "Genre" ++ toString i)

/-- A concrete date collaborator for witnesses. -/
def ds0 : String → String :=
  fun _ => "Jan 15, 2023"

/-- A concrete podcast record for witnesses. -/
def p0 : Podcast :=
  { id := "1"
    title := .str "Show A"
    image := "a.jpg"
    seasons := 3
    genres := [1, 2]
    genreNames := .undef
    updated := "2023-01-15T00:00:00Z"
    formattedDate := .undef }

/-- The witness record for claim C1's counterexample: zero seasons. -/
def pSeason0 : Podcast :=
  { p0 with seasons := 0 }

/-- Auxiliary: appending one card at a time to an accumulator is mapping. -/
theorem foldl_append_eq_map {α β : Type} (f : α → β) (l : List α) (acc : List β) :
    l.foldl (fun a p => a ++ [f p]) acc = acc ++ l.map f := by
  induction l generalizing acc with
  | nil => simp
  | cons x xs ih => simp [List.foldl, ih]

/-- Auxiliary: a successful grid render produces exactly the mapped cards. -/
theorem gridRender_cards (gs : List Nat → List String) (ds : String → String)
    (prior : List CardState) (l : List Podcast) :
    gridRender gs ds { container := some () } prior l
      = .ok (l.map fun p => (mkGridCard gs ds p).1) := by
  simp [gridRender, foldl_append_eq_map]

/-- C1 counterexample: for a record with `seasons = 0` the rendered
season-count text is `"0 season"`, not the `"0 seasons"` the claim
requires. -/
theorem c1_counterexample :
    (setPodcast gs0 ds0 pSeason0 newCard).1.seasonsText = "0 season" ∧
    (setPodcast gs0 ds0 pSeason0 newCard).1.seasonsText ≠ "0 seasons" := by
  constructor
  · rfl
  · decide

/-- C1 (amended): the rendered season-count text pluralizes only for
`seasons > 1`: it is `"{n} seasons"` for every `n ≥ 2` and
`"{n} season"` for `n = 1` and for `n = 0`. -/
theorem c1_amended (gs : List Nat → List String) (ds : String → String)
    (p : Podcast) :
    (setPodcast gs ds p newCard).1.seasonsText =
      (if 2 ≤ p.seasons then toString p.seasons ++ " seasons"
       else toString p.seasons ++ " season") := by
  by_cases h : 2 ≤ p.seasons
  · have h1 : 1 < p.seasons := h
    simp only [setPodcast, renderPodcast, h, h1, if_true]
    rw [String.append_assoc]
    rfl
  · have h1 : ¬ 1 < p.seasons := h
    simp [setPodcast, renderPodcast, h, h1]

/-- C8: if `setPodcast` has never been called (the stored `_podcast` is
still `undefined`), the render pass is a guarded no-op: the card state
is returned unchanged and neither collaborator is invoked; the function
is total, so no exception is raised. -/
theorem c8_noop (gs : List Nat → List String) (ds : String → String)
    (s : CardState) (h : s.podcast = none) :
    renderPodcast gs ds s = (s, [], []) := by
  simp [renderPodcast, h]

/-- C8 witness: the no-op on a freshly constructed card. -/
theorem c8_noop_witness :
    newCard.podcast = none ∧ renderPodcast gs0 ds0 newCard = (newCard, [], []) :=
  ⟨rfl, c8_noop gs0 ds0 newCard rfl⟩

/-- C7: the render pass puts exactly one tag element per resolved genre
name into the tag list, in input order (so zero tags for an empty
resolved sequence), and the number of tags equals the length of the
resolved sequence. -/
theorem c7_tags (gs : List Nat → List String) (ds : String → String)
    (s : CardState) (p : Podcast) :
    (setPodcast gs ds p s).1.tags = (resolvedGenres gs p).map renderTag ∧
    (setPodcast gs ds p s).1.tags.length = (resolvedGenres gs p).length := by
  cases h : p.genreNames <;>
    simp [setPodcast, renderPodcast, resolvedGenres, h]

/-- C2: after any sequence of `setPodcast` calls ending with record `p`
on one card, a single click on the card surface emits exactly one
`podcast-selected` event, bubbling and composed, whose `detail.podcast`
is `p`, the record of the most recent `setPodcast` call — the dispatch
closure reads the current `_podcast` at click time, and each render
assigns the single `onclick` slot, so repeated renders never accumulate
duplicate handlers. -/
theorem c2_click_emits_latest (gs : List Nat → List String)
    (ds : String → String) (ps : List Podcast) (p : Podcast) :
    click (setPodcasts gs ds (ps ++ [p]) newCard) = [⟨some p, true, true⟩] ∧
    (setPodcasts gs ds (ps ++ [p]) newCard).podcast = some p := by
  have h : setPodcasts gs ds (ps ++ [p]) newCard
      = (setPodcast gs ds p (setPodcasts gs ds ps newCard)).1 := by
    simp [setPodcasts, List.foldl_append]
  rw [h]
  cases hg : p.genreNames <;> cases hd : p.formattedDate <;>
    simp [setPodcast, renderPodcast, click, hg, hd]

/-- The witness record for claim C3's counterexample: `formattedDate`
is present but is the empty string, `genreNames` is present. -/
def pEmptyDate : Podcast :=
  { p0 with genreNames := .arr ["Comedy"], formattedDate := .str "" }

/-- C3 counterexample: on a record whose `formattedDate` field is
present (the empty string), the render pass nevertheless invokes the
date collaborator on `updated` and displays its result instead of the
provided value, refuting "if present ... used as-is" for presence that
is not truthiness. -/
theorem c3_counterexample :
    pEmptyDate.formattedDate = .str "" ∧
    (setPodcast gs0 ds0 pEmptyDate newCard).2.2 = ["2023-01-15T00:00:00Z"] ∧
    (setPodcast gs0 ds0 pEmptyDate newCard).1.updatedText = "Jan 15, 2023" ∧
    (setPodcast gs0 ds0 pEmptyDate newCard).1.updatedText ≠ "" := by
  refine ⟨rfl, rfl, rfl, ?_⟩
  decide

/-- C3 (amended): the render pass tests the optional fields by JavaScript
truthiness, not by presence. A present `genreNames` array is always
truthy, so it is used as-is and the genre collaborator is not invoked;
when `genreNames` is falsy (absent, `undefined` or `null`) the genre
collaborator is invoked with exactly `genres`. A present `formattedDate`
is used as-is, with the date collaborator not invoked, only when it is a
non-empty string; when `formattedDate` is falsy (absent, `null` or the
empty string) the date collaborator is invoked with exactly `updated`
and its result is displayed. -/
theorem c3_truthy_presence (gs : List Nat → List String)
    (ds : String → String) (p : Podcast) :
    (∀ l, p.genreNames = .arr l →
      (setPodcast gs ds p newCard).2.1 = [] ∧
      (setPodcast gs ds p newCard).1.tags = l.map renderTag) ∧
    (p.genreNames.truthy = false →
      (setPodcast gs ds p newCard).2.1 = [p.genres] ∧
      (setPodcast gs ds p newCard).1.tags = (gs p.genres).map renderTag) ∧
    (∀ d, p.formattedDate = .str d → d ≠ "" →
      (setPodcast gs ds p newCard).2.2 = [] ∧
      (setPodcast gs ds p newCard).1.updatedText = d) ∧
    (p.formattedDate.truthy = false →
      (setPodcast gs ds p newCard).2.2 = [p.updated] ∧
      (setPodcast gs ds p newCard).1.updatedText = ds p.updated) := by
  refine ⟨?_, ?_, ?_, ?_⟩
  · intro l hl
    simp [setPodcast, renderPodcast, hl]
  · intro ht
    cases hg : p.genreNames <;>
      simp [hg, JStrArr.truthy] at ht ⊢ <;>
      simp [setPodcast, renderPodcast, hg]
  · intro d hd hne
    simp [setPodcast, renderPodcast, hd, hne]
  · intro ht
    cases hd : p.formattedDate with
    | undef => simp [setPodcast, renderPodcast, hd]
    | null => simp [setPodcast, renderPodcast, hd]
    | str d =>
      rw [hd] at ht
      simp only [JStr.truthy, bne_eq_false_iff_eq] at ht
      simp [setPodcast, renderPodcast, hd, ht]

/-- The witness record for claim C6: `title` is undefined, the optional
fields are present and truthy so no collaborator is involved. -/
def pNoTitle : Podcast :=
  { p0 with
      title := .undef
      genreNames := .arr ["Comedy", "News"]
      formattedDate := .str "Jan 15, 2023" }

/-- C6: for a record whose required `title` is undefined while the
optional fields are present and truthy (so no collaborator is involved),
the render pass completes without invoking any collaborator — it is a
total function, so nothing throws — and the displayed title is the empty
string: assigning `undefined` to `textContent` (a nullable `DOMString`
with `LegacyNullToEmptyString`) stores `""`. -/
theorem c6_missing_title (gs : List Nat → List String)
    (ds : String → String) (p : Podcast) (h1 : p.title = .undef)
    (h2 : ∃ l, p.genreNames = .arr l)
    (h3 : ∃ d, p.formattedDate = .str d ∧ d ≠ "") :
    (setPodcast gs ds p newCard).1.titleText = "" ∧
    (setPodcast gs ds p newCard).2.1 = [] ∧
    (setPodcast gs ds p newCard).2.2 = [] := by
  obtain ⟨l, hl⟩ := h2
  obtain ⟨d, hd, hne⟩ := h3
  simp [setPodcast, renderPodcast, h1, hl, hd, hne, JStr.toTextContent]

/-- C6 witness: the concrete record `pNoTitle`. -/
theorem c6_missing_title_witness :
    pNoTitle.title = JStr.undef ∧
    (setPodcast gs0 ds0 pNoTitle newCard).1.titleText = "" ∧
    (setPodcast gs0 ds0 pNoTitle newCard).2.1 = [] ∧
    (setPodcast gs0 ds0 pNoTitle newCard).2.2 = [] :=
  ⟨rfl,
    c6_missing_title gs0 ds0 pNoTitle rfl ⟨["Comedy", "News"], rfl⟩
      ⟨"Jan 15, 2023", rfl, by decide⟩⟩

/-- C4: with the container present, `render` fully replaces the prior
content: whatever the container held before, the result is exactly one
fresh card per entry of the input list, in input order; `render []`
leaves zero cards; and the outcome is independent of the prior content,
so a second `render` leaves exactly the second list's cards with no
residue from the first. -/
theorem c4_render_replaces (gs : List Nat → List String)
    (ds : String → String) (prior prior2 : List CardState)
    (l : List Podcast) :
    gridRender gs ds { container := some () } prior l
      = .ok (l.map fun p => (mkGridCard gs ds p).1) ∧
    (l.map fun p => (mkGridCard gs ds p).1).length = l.length ∧
    gridRender gs ds { container := some () } prior ([] : List Podcast)
      = .ok ([] : List CardState) ∧
    gridRender gs ds { container := some () } prior l
      = gridRender gs ds { container := some () } prior2 l := by
  refine ⟨gridRender_cards gs ds prior l, List.length_map _ _, ?_, ?_⟩
  · exact gridRender_cards gs ds prior []
  · rw [gridRender_cards gs ds prior l, gridRender_cards gs ds prior2 l]

/-- C5 counterexample: with the container element absent, grid creation
reports no error to the caller (it returns the grid object with a null
container), and a later `render` call is not a no-op: it fails with an
unguarded `TypeError` on `container.innerHTML = ""`. This refutes the
claim that the absence is reported at creation time or turned into a
no-op. -/
theorem c5_counterexample :
    ¬((∃ e, createGrid false = .error e) ∨
      (∀ prior l, gridRender gs0 ds0 { container := none } prior l
        = .ok prior)) := by
  rintro (⟨e, he⟩ | hnoop)
  · simp [createGrid] at he
  · have h := hnoop [] []
    simp [gridRender] at h

/-- C5 (amended): when the container element is absent, `createGrid`
itself reports no error — the null lookup result is silently captured —
and every subsequent `render` call fails with an unguarded `TypeError`
raised while clearing the null container. -/
theorem c5_amended (gs : List Nat → List String) (ds : String → String)
    (prior : List CardState) (l : List Podcast) :
    createGrid false = .ok { container := none } ∧
    gridRender gs ds { container := none } prior l
      = .error (.typeError "Cannot set properties of null") := by
  constructor
  · rfl
  · rfl

/-- C9: for every record `p` in the list passed to the grid's `render`,
the grid invokes the genre collaborator on `p.genres` and the date
collaborator on `p.updated` unconditionally — they head that record's
call logs whatever `p.genreNames` and `p.formattedDate` contain — and
the created card is bound to the record enriched with the freshly
computed `genreNames` and `formattedDate`. -/
theorem c9_grid_enrichment (gs : List Nat → List String)
    (ds : String → String) (prior : List CardState) (l : List Podcast)
    (p : Podcast) (h : p ∈ l) :
    gridRender gs ds { container := some () } prior l
      = .ok (l.map fun q => (mkGridCard gs ds q).1) ∧
    (mkGridCard gs ds p).1 ∈
      (l.map fun q => (mkGridCard gs ds q).1) ∧
    (mkGridCard gs ds p).2.1.head? = some p.genres ∧
    (mkGridCard gs ds p).2.2.head? = some p.updated ∧
    (mkGridCard gs ds p).1.podcast =
      some { p with genreNames := .arr (gs p.genres),
                    formattedDate := .str (ds p.updated) } := by
  refine ⟨gridRender_cards gs ds prior l, List.mem_map_of_mem _ h, rfl, rfl, ?_⟩
  have hd : ds p.updated = "" ∨ ds p.updated ≠ "" := em _
  rcases hd with hd | hd <;>
    simp [mkGridCard, setPodcast, renderPodcast, enrich, hd]

/-- C9 witness: the concrete record `p0` in a one-element list. -/
theorem c9_grid_enrichment_witness :
    p0 ∈ [p0] ∧
    (gridRender gs0 ds0 { container := some () } []
        [p0] = .ok ([p0].map fun q => (mkGridCard gs0 ds0 q).1) ∧
      (mkGridCard gs0 ds0 p0).1 ∈
        ([p0].map fun q => (mkGridCard gs0 ds0 q).1) ∧
      (mkGridCard gs0 ds0 p0).2.1.head? = some p0.genres ∧
      (mkGridCard gs0 ds0 p0).2.2.head? = some p0.updated ∧
      (mkGridCard gs0 ds0 p0).1.podcast =
        some { p0 with genreNames := .arr (gs0 p0.genres),
                       formattedDate := .str (ds0 p0.updated) }) :=
  ⟨List.mem_singleton.mpr rfl,
    c9_grid_enrichment gs0 ds0 [] [p0] p0 (List.mem_singleton.mpr rfl)⟩

/-- C10: a falsy optional field is treated as absence, each field
independently. For every record whose `formattedDate` is falsy — the
empty string, `null`, or absent — the render pass invokes the date
collaborator on `updated` and displays its result instead of the
provided value, whatever `genreNames` holds; and for every record whose
`genreNames` is falsy, the render pass invokes the genre collaborator on
`genres` and renders its result, whatever `formattedDate` holds. -/
theorem c10_falsy_fields (gs : List Nat → List String)
    (ds : String → String) (p : Podcast) :
    (p.formattedDate.truthy = false →
      (setPodcast gs ds p newCard).2.2 = [p.updated] ∧
      (setPodcast gs ds p newCard).1.updatedText = ds p.updated) ∧
    (p.genreNames.truthy = false →
      (setPodcast gs ds p newCard).2.1 = [p.genres] ∧
      (setPodcast gs ds p newCard).1.tags = (gs p.genres).map renderTag) := by
  constructor
  · intro ht
    cases hd : p.formattedDate with
    | undef => simp [setPodcast, renderPodcast, hd]
    | null => simp [setPodcast, renderPodcast, hd]
    | str d =>
      rw [hd] at ht
      simp only [JStr.truthy, bne_eq_false_iff_eq] at ht
      simp [setPodcast, renderPodcast, hd, ht]
  · intro ht
    cases hg : p.genreNames <;>
      simp [hg, JStrArr.truthy] at ht ⊢ <;>
      simp [setPodcast, renderPodcast, hg]
